import Mathlib

/-!
Verification development for the fufx ingestion & delivery-matching engine.

Shallow embedding of:
- `src/crawler/govinfo.py` (pagination loop, SQLite document catalog),
- `src/scripts/send_digest.py` (rule matcher),
- `src/scripts/sync_pro_digests.py` (similarity selector, candidate upsert),
- `src/scripts/send_pro_digest.py` (delivery tracker / sent marking).

Python strings are modelled as Lean `String`, Python `None`-able values as
`Option`, database tables as lists of row structures, and external HTTP
collaborators as explicit function parameters.
-/

namespace Fufx

/-! ### Rule matcher (`src/scripts/send_digest.py`) -/

/-- An extraction row as selected by `fetch_extractions_for_date`
(`send_digest.py`): fields the matcher reads via `dict.get`, so each is
optional exactly where the code supplies a default. -/
structure Extraction where
  title : Option String
  companies_mentioned : Option (List String)
  sectors : Option (List String)
  relevance : Option (List String)
  summary : Option String
deriving Repr, DecidableEq

/-- A standard-tier subscription row (`fetch_active_subscriptions`). -/
structure Subscription where
  sectors : Option (List String)
  relevance_threshold : Option String
  keywords : Option (List String)
deriving Repr, DecidableEq

/-- `RELEVANCE_ORDER = {"high": 3, "medium": 2, "low": 1}` (`send_digest.py`
line 30), as a partial lookup: `none` models a key missing from the dict. -/
def RELEVANCE_ORDER (s : String) : Option Nat :=
  if s = "high" then some 3
  else if s = "medium" then some 2
  else if s = "low" then some 1
  else none

/-- `matches_threshold` (`send_digest.py` lines 100-106):
`threshold_val = RELEVANCE_ORDER.get(threshold, 2)`; returns true as soon as
one relevance tier has `RELEVANCE_ORDER.get(rel, 0) >= threshold_val`. -/
def matches_threshold (extraction_relevance : List String) (threshold : String) : Bool :=
  let threshold_val := (RELEVANCE_ORDER threshold).getD 2
  extraction_relevance.any (fun rel => (RELEVANCE_ORDER rel).getD 0 ≥ threshold_val)

/-- `matches_sectors` (`send_digest.py` lines 109-113): empty subscription
sector list matches all; otherwise require a non-empty intersection. -/
def matches_sectors (extraction_sectors : List String) (sub_sectors : List String) : Bool :=
  if sub_sectors.isEmpty then true
  else extraction_sectors.any (fun s => sub_sectors.contains s)

/-- ASCII lowercase of a char list, modelling Python `str.lower()` on the
ASCII text this pipeline handles. -/
def lowerChars (cs : List Char) : List Char := cs.map Char.toLower

/-- Boolean prefix test on char lists, modelling the start of a Python
substring search. -/
def isPrefixB : List Char → List Char → Bool
  | [], _ => true
  | _ :: _, [] => false
  | a :: as, b :: bs => a = b && isPrefixB as bs

/-- Boolean substring test on char lists: Python's `needle in hay`. -/
def isSubstrB (needle : List Char) : List Char → Bool
  | [] => isPrefixB needle []
  | c :: rest => isPrefixB needle (c :: rest) || isSubstrB needle rest

/-- `" ".join(parts)`. -/
def joinSpace (parts : List String) : String :=
  String.intercalate " " parts

/-- The text searched by `matches_keywords` (`send_digest.py` lines 121-127):
`" ".join([title or "", summary or "", " ".join(companies or [])]).lower()`. -/
def keywordSearchText (e : Extraction) : List Char :=
  lowerChars (joinSpace
    [e.title.getD "", e.summary.getD "",
     joinSpace (e.companies_mentioned.getD [])]).data

/-- `matches_keywords` (`send_digest.py` lines 116-129): empty keyword list
matches all; otherwise `any(kw.lower() in text for kw in keywords)`. -/
def matches_keywords (e : Extraction) (keywords : List String) : Bool :=
  if keywords.isEmpty then true
  else keywords.any (fun kw => isSubstrB (lowerChars kw.data) (keywordSearchText e))

/-- `filter_extractions_for_subscription` (`send_digest.py` lines 132-148):
keeps extractions passing all three predicates, with the caller-side `dict.get`
defaults (`relevance` → `[]`, `relevance_threshold` → `"medium"`,
`sectors` → `[]`, `keywords` → `[]`). -/
def filter_extractions_for_subscription
    (extractions : List Extraction) (sub : Subscription) : List Extraction :=
  extractions.filter (fun e =>
    matches_threshold (e.relevance.getD []) (sub.relevance_threshold.getD "medium")
      && matches_sectors (e.sectors.getD []) (sub.sectors.getD [])
      && matches_keywords e (sub.keywords.getD []))

/-! Spec-side restatements used only to compare against the code-side
definitions (refinement direction of C6/C7). -/

/-- Spec ordinal scale for a relevance tier: `{low:1, medium:2, high:3}`,
unknown ↦ 0. -/
def specTierOrd (s : String) : Nat :=
  if s = "low" then 1 else if s = "medium" then 2 else if s = "high" then 3 else 0

/-- Spec ordinal for a subscription threshold: the scale above, with unset or
unknown values treated as `medium` (ordinal 2). -/
def specThresholdOrd (s : String) : Nat :=
  if s = "low" then 1 else if s = "medium" then 2 else if s = "high" then 3 else 2

/-- The un-lowered digest text the spec describes: the space-joined
concatenation of title, summary, and company names. -/
def specDigestText (e : Extraction) : String :=
  joinSpace
    [e.title.getD "", e.summary.getD "",
     joinSpace (e.companies_mentioned.getD [])]

/-- Spec-side case-insensitive substring occurrence: lowercase both sides,
then check substring containment. -/
def specOccursCaseInsensitive (kw text : String) : Prop :=
  isSubstrB (lowerChars kw.data) (lowerChars text.data) = true

/-! ### Delivery tracker (`extractions_pro` table, `sync_pro_digests.py` and
`send_pro_digest.py`) -/

/-- A row of the `extractions_pro` table: surrogate `id`, the
(subscription, document, period) triple, and the nullable `summary` /
`sent_at` columns. -/
structure ProRow where
  id : Nat
  subscription_pro_id : Nat
  document_id : Nat
  period_date : String
  summary : Option String
  sent_at : Option String
deriving Repr, DecidableEq

/-- Whether a row carries the given (subscription, document, period) triple —
the conflict target `on_conflict="subscription_pro_id,document_id,period_date"`
of `insert_extractions_pro` (`sync_pro_digests.py` line 124). -/
def tripleMatches (s d : Nat) (pd : String) (r : ProRow) : Bool :=
  r.subscription_pro_id == s && r.document_id == d && r.period_date == pd

/-- A fresh surrogate id for an inserted row (the engine's autoincrement; its
exact value is irrelevant to the claims, only freshness conventions matter). -/
def freshId (t : List ProRow) : Nat :=
  t.foldr (fun r m => max r.id m) 0 + 1

/-- Modelled from the spec: the storage layer's upsert keyed by the full
triple. The repository's database schema (the unique index on
`(subscription_pro_id, document_id, period_date)` that backs the supabase
`.upsert(..., on_conflict=...)` call in `insert_extractions_pro`) is not under
`src/`; spec §3/§4.5/§6 state the triple-keyed uniqueness as load-bearing.
Semantics of `INSERT ... ON CONFLICT (triple) DO UPDATE`: when a row with the
triple exists, the payload columns (exactly the triple) are rewritten on the
matching row and no row is added; otherwise a new row is inserted with null
`summary` and `sent_at`. -/
def upsertPro (s d : Nat) (pd : String) (t : List ProRow) : List ProRow :=
  if t.any (tripleMatches s d pd) then
    t.map (fun r =>
      if tripleMatches s d pd r then
        { r with subscription_pro_id := s, document_id := d, period_date := pd }
      else r)
  else t ++ [⟨freshId t, s, d, pd, none, none⟩]

/-- `insert_extractions_pro` (`sync_pro_digests.py` lines 101-132): one upsert
per document id, counting each success; returns the updated table and the
`inserted` count. -/
def insert_extractions_pro (subscription_id : Nat) (document_ids : List Nat)
    (period_date : String) (t : List ProRow) : List ProRow × Nat :=
  document_ids.foldl
    (fun acc d => (upsertPro subscription_id d period_date acc.1, acc.2 + 1))
    (t, 0)

/-- `mark_extractions_sent` (`send_pro_digest.py` lines 103-115):
`UPDATE extractions_pro SET sent_at = now WHERE id IN ids`, where `now` is
`datetime.now().isoformat()` at the call. The update is unconditional on the
previous `sent_at`. -/
def mark_extractions_sent (ids : List Nat) (now : String) (t : List ProRow) :
    List ProRow :=
  t.map (fun r => if ids.contains r.id then { r with sent_at := some now } else r)

/-- `fetch_unsent_extractions_for_subscription` (`send_pro_digest.py` lines
76-100): rows of the subscription with a non-null summary, a null `sent_at`,
and (when a period is given) the matching `period_date`. -/
def fetch_unsent_extractions_for_subscription (subscription_id : Nat)
    (period_date : Option String) (t : List ProRow) : List ProRow :=
  t.filter (fun r =>
    r.subscription_pro_id == subscription_id
      && r.summary.isSome
      && r.sent_at.isNone
      && (match period_date with
          | some pd => r.period_date == pd
          | none => true))

/-! ### Similarity selector (`src/scripts/sync_pro_digests.py`) -/

/-- A pro-tier subscription row (`fetch_active_pro_subscriptions`). -/
structure ProSubscription where
  id : Nat
  email : String
  company_type : Option String
  keywords : Option (List String)
deriving Repr, DecidableEq

/-- `build_search_query` (`sync_pro_digests.py` lines 54-69). Python
truthiness: a `None` or empty `company_type` contributes nothing; missing
keywords default to `[]`; an empty joined list falls back to
`"regulatory policy"`. -/
def build_search_query (sub : ProSubscription) : String :=
  let companyPart : List String :=
    match sub.company_type with
    | some c => if c = "" then [] else [c]
    | none => []
  let parts := companyPart ++ sub.keywords.getD []
  if parts.isEmpty then "regulatory policy" else joinSpace parts

/-- One record of the semantic-search edge function's ranked response. -/
structure SearchResult where
  document_id : Nat
deriving Repr, DecidableEq

/-- The counters reported by `sync_pro_digests` (line 153). -/
structure SyncStats where
  subscriptions : Nat
  documents : Nat
  errors : Nat
deriving Repr, DecidableEq

/-- The body of the per-subscription loop of `sync_pro_digests`
(`sync_pro_digests.py` lines 155-179). The external `semantic_search` HTTP
call is the `search` parameter (query string to ranked results, `.error` for a
raised exception); a failure increments `errors` and moves on; an empty result
set skips the subscription; otherwise the returned document ids are upserted
and the counters advance. -/
def syncStep (search : String → Except Unit (List SearchResult)) (pd : String)
    (acc : SyncStats × List ProRow) (sub : ProSubscription) :
    SyncStats × List ProRow :=
  match search (build_search_query sub) with
  | .error _ => ({ acc.1 with errors := acc.1.errors + 1 }, acc.2)
  | .ok results =>
    if results.isEmpty then acc
    else
      let document_ids := results.map SearchResult.document_id
      let ins := insert_extractions_pro sub.id document_ids pd acc.2
      ({ acc.1 with
          subscriptions := acc.1.subscriptions + 1,
          documents := acc.1.documents + ins.2 }, ins.1)

/-- `sync_pro_digests` (`sync_pro_digests.py` lines 135-181) restricted to its
per-subscription loop: fold `syncStep` over the active subscriptions starting
from zeroed counters and the current `extractions_pro` table. -/
def sync_pro_digests (search : String → Except Unit (List SearchResult))
    (subs : List ProSubscription) (pd : String) (t : List ProRow) :
    SyncStats × List ProRow :=
  subs.foldl (syncStep search pd) (⟨0, 0, 0⟩, t)

/-- Componentwise sum of counters (used to state that the loop's counters are
additive in their starting value). -/
def statsAdd (a b : SyncStats) : SyncStats :=
  ⟨a.subscriptions + b.subscriptions, a.documents + b.documents,
   a.errors + b.errors⟩

/-- Rows of `t` carrying the given triple. -/
def countTriple (s d : Nat) (pd : String) (t : List ProRow) : Nat :=
  (t.filter (tripleMatches s d pd)).length

/-- The `extractions_pro` uniqueness invariant: at most one row per
(subscription, document, period) triple. -/
def uniqueTriples (t : List ProRow) : Prop :=
  ∀ (s d : Nat) (pd : String), countTriple s d pd t ≤ 1

/-! ### Paginated fetcher (`src/crawler/govinfo.py`) -/

/-- `PAGE_SIZE = 100` (`govinfo.py` line 24). -/
def PAGE_SIZE : Nat := 100

/-- The transport failures of one page fetch: `resp.raise_for_status()`
raising `httpx.HTTPStatusError` (caught by the loop's `except` and turned
into `break`), or a timeout (`httpx.TimeoutException` is not a subclass of
`HTTPStatusError`, so it propagates out of the generator). -/
inductive FetchErr where
  | statusError
  | timeout
deriving Repr, DecidableEq

/-- One search response as read by the loop: `data.get("resultSet", [])` and
`data.get("iTotalCount", 0)` (`none` models a missing count key). The page
items are a type parameter: the source yields `parse_document(result,
query_date)` per raw record, a total per-element map that does not affect
pagination, so pages carry the already-mapped documents. -/
structure PageResponse (α : Type) where
  resultSet : List α
  iTotalCount : Option Nat
deriving Repr, DecidableEq

/-- How one `crawl_date_range` generator run ends: the loop `break`s (normal
generator exhaustion) or an uncaught timeout exception escapes to the
consumer. -/
inductive CrawlOutcome where
  | finished
  | raisedTimeout
deriving Repr, DecidableEq

/-- The outcome produced by a transport failure: a non-2xx status is caught
and ends the sequence cleanly; a timeout ends it by propagating. -/
def errOutcome : FetchErr → CrawlOutcome
  | .statusError => .finished
  | .timeout => .raisedTimeout

/-- The observable behaviour of one `crawl_date_range` invocation: how many
page requests were issued, the documents yielded (in order) before the end,
and how the sequence ended. -/
structure CrawlResult (α : Type) where
  requests : Nat
  yielded : List α
  outcome : CrawlOutcome
deriving Repr, DecidableEq

/-- The `while True` loop of `crawl_date_range` (`govinfo.py` lines 96-125).
The external search endpoint is `server`, a map from the request offset to a
response or a transport failure (the date arguments are fixed per invocation
and absorbed into it). The second argument is the loop's `offset`, the third
the `total_count` local (`none` until the first response, as in the source;
it is never re-read once set). `fuel` bounds the recursion of the shallow
embedding and is consumed once per page request; every theorem below supplies
enough fuel for its run. -/
def crawlLoop {α : Type} (server : Nat → Except FetchErr (PageResponse α)) :
    Nat → Nat → Option Nat → CrawlResult α
  | 0, _, _ => ⟨0, [], .finished⟩
  | fuel + 1, offset, total? =>
    match server offset with
    | .error .statusError => ⟨1, [], .finished⟩
    | .error .timeout => ⟨1, [], .raisedTimeout⟩
    | .ok data =>
      let total := total?.getD (data.iTotalCount.getD 0)
      if data.resultSet.isEmpty then ⟨1, [], .finished⟩
      else if (offset + 1) * PAGE_SIZE ≥ total then ⟨1, data.resultSet, .finished⟩
      else
        let rest := crawlLoop server fuel (offset + 1) (some total)
        ⟨rest.requests + 1, data.resultSet ++ rest.yielded, rest.outcome⟩

/-- `crawl_date_range` for one invocation: run the loop from offset 0 with no
captured total yet. -/
def crawl_date_range {α : Type}
    (server : Nat → Except FetchErr (PageResponse α)) (fuel : Nat) :
    CrawlResult α :=
  crawlLoop server fuel 0 none

/-- `server` produces, from `offset` on, exactly the given pages, each
non-empty, each leaving the loop's count-math termination check
`(page index + 1) * PAGE_SIZE >= total` false (so the loop continues past
every one of them). The reported per-page counts are unconstrained: the loop
must not re-read them after the first page. -/
def ServedFrom {α : Type} (server : Nat → Except FetchErr (PageResponse α))
    (total : Nat) : Nat → List (List α) → Prop
  | _, [] => True
  | offset, p :: rest =>
    (∃ c, server offset = .ok ⟨p, c⟩) ∧ p ≠ []
      ∧ (offset + 1) * PAGE_SIZE < total
      ∧ ServedFrom server total (offset + 1) rest

/-! ### Catalog store (`src/crawler/govinfo.py`, `init_db` / `save_documents`) -/

/-- The `Document` dataclass (`govinfo.py` lines 31-42). -/
structure Document where
  package_id : String
  title : String
  doc_class : String
  publish_date : String
  metadata : String
  pdf_url : Option String
  html_url : Option String
  details_url : String
  granule_id : Option String
  summary : Option String
deriving Repr, DecidableEq

/-- A stored row of the `documents` table created by `init_db` (`govinfo.py`
lines 128-155), without the surrogate autoincrement `id` column (spec §4.2
explicitly does not require surrogate-id stability, and no claim reads it). -/
structure DocRow where
  package_id : String
  granule_id : Option String
  title : String
  doc_class : String
  publish_date : String
  metadata : String
  pdf_url : Option String
  html_url : Option String
  details_url : String
  summary : Option String
  crawled_at : String
deriving Repr, DecidableEq

/-- The row bound by `save_documents`'s parameterized `INSERT OR REPLACE` for
one document of a run with ingestion timestamp `crawled_at`. -/
def rowOfDocument (doc : Document) (crawled_at : String) : DocRow :=
  ⟨doc.package_id, doc.granule_id, doc.title, doc.doc_class, doc.publish_date,
   doc.metadata, doc.pdf_url, doc.html_url, doc.details_url, doc.summary,
   crawled_at⟩

/-- Conflict test of the table's `UNIQUE(package_id, granule_id)` index under
SQLite semantics: two rows conflict iff the `package_id`s are equal and the
`granule_id`s are equal and both non-NULL. SQLite documents that for unique
indexes all NULL values are considered distinct from each other, so a NULL
granule never conflicts with anything. -/
def uniqueConflict (a b : DocRow) : Bool :=
  a.package_id == b.package_id
    && (match a.granule_id, b.granule_id with
        | some ga, some gb => ga == gb
        | _, _ => false)

/-- `INSERT OR REPLACE INTO documents ...`: delete every stored row in
conflict with the incoming row on the unique index, then insert the new
row. -/
def insertOrReplace (t : List DocRow) (r : DocRow) : List DocRow :=
  (t.filter (fun old => !uniqueConflict r old)) ++ [r]

/-- `save_documents` (`govinfo.py` lines 158-179): one `INSERT OR REPLACE`
per crawled document, all stamped with the run's `crawled_at`. -/
def save_documents (t : List DocRow) (docs : List Document)
    (crawled_at : String) : List DocRow :=
  docs.foldl (fun acc doc => insertOrReplace acc (rowOfDocument doc crawled_at)) t

/-- Stored rows carrying a given document identity, where identity compares
the nullable granule the way the spec reads it: both absent or both equal
(`granule_id` absent degenerates the key to `package_id` alone, §3). -/
def countIdentity (pkg : String) (gran : Option String) (t : List DocRow) : Nat :=
  (t.filter (fun r => r.package_id == pkg && r.granule_id == gran)).length

end Fufx

namespace Fufx

/-! ### Lemmas about the rule matcher -/

lemma relevanceOrder_getD_zero (s : String) :
    (RELEVANCE_ORDER s).getD 0 = specTierOrd s := by
  unfold RELEVANCE_ORDER specTierOrd
  split_ifs <;> simp_all

lemma relevanceOrder_getD_two (s : String) :
    (RELEVANCE_ORDER s).getD 2 = specThresholdOrd s := by
  unfold RELEVANCE_ORDER specThresholdOrd
  split_ifs <;> simp_all

lemma isSubstrB_nil (hay : List Char) : isSubstrB [] hay = true := by
  cases hay <;> simp [isSubstrB, isPrefixB]

lemma keywordSearchText_eq_lower_digest (e : Extraction) :
    keywordSearchText e = lowerChars (specDigestText e).data := rfl

/-! ### Claim theorems for the rule matcher -/

/-- **C6.** `matches_threshold` maps each tier through the ordinal scale
`{low:1, medium:2, high:3}` (unknown → 0), uses ordinal 2 for an unknown or
unset threshold, and holds iff some tier's ordinal reaches the threshold
ordinal; in particular `["low","medium"]` fails threshold `"high"` while
`["low","high"]` passes it. -/
theorem matches_threshold_ordinal_spec :
    (∀ (rels : List String) (t : String),
      matches_threshold rels t = true ↔ ∃ r ∈ rels, specThresholdOrd t ≤ specTierOrd r)
    ∧ matches_threshold ["low", "medium"] "high" = false
    ∧ matches_threshold ["low", "high"] "high" = true := by
  refine ⟨fun rels t => ?_, by decide, by decide⟩
  unfold matches_threshold
  rw [List.any_eq_true]
  simp only [relevanceOrder_getD_zero, relevanceOrder_getD_two,
    ge_iff_le, decide_eq_true_eq]

/-- **C7.** `matches_keywords` is vacuously true on an empty keyword list and
otherwise holds iff some keyword occurs case-insensitively as a substring of
the space-joined concatenation of title, summary, and company names; in
particular keyword `"Pharma"` matches a summary containing
`"the pharma sector"`, and so does the inner substring `"harm"`. -/
theorem matches_keywords_substring_spec :
    (∀ (e : Extraction) (kws : List String),
      matches_keywords e kws = true ↔
        (kws = [] ∨ ∃ kw ∈ kws, specOccursCaseInsensitive kw (specDigestText e)))
    ∧ matches_keywords
        ⟨some "Daily update", some ["Acme"], some ["health"], some ["high"],
          some "growth in the pharma sector this week"⟩ ["Pharma"] = true
    ∧ matches_keywords
        ⟨some "Daily update", some ["Acme"], some ["health"], some ["high"],
          some "growth in the pharma sector this week"⟩ ["harm"] = true := by
  refine ⟨fun e kws => ?_, by decide, by decide⟩
  unfold matches_keywords
  rcases kws with _ | ⟨kw, rest⟩
  · simp
  · simp only [List.isEmpty_cons, List.any_eq_true, if_neg Bool.false_ne_true,
      keywordSearchText_eq_lower_digest, specOccursCaseInsensitive,
      List.cons_ne_nil, false_or]

/-- **C9.** An extraction whose relevance-tier list is empty (or missing)
never matches any threshold — `matches_threshold` on the empty list is false —
so `filter_extractions_for_subscription` never selects it, for any
subscription. -/
theorem empty_relevance_never_selected :
    (∀ t : String, matches_threshold [] t = false)
    ∧ ∀ (exts : List Extraction) (sub : Subscription) (e : Extraction),
        e.relevance.getD [] = [] →
        e ∉ filter_extractions_for_subscription exts sub := by
  refine ⟨fun t => rfl, fun exts sub e hrel hmem => ?_⟩
  rw [filter_extractions_for_subscription, List.mem_filter] at hmem
  rw [hrel] at hmem
  simp [matches_threshold] at hmem

/-- Witness for `empty_relevance_never_selected`: a concrete extraction with
`relevance = some []` is not selected by a concrete subscription. -/
theorem empty_relevance_never_selected_witness :
    (⟨some "T", some [], some [], some ([] : List String), some "S"⟩ :
        Extraction).relevance.getD [] = []
    ∧ (⟨some "T", some [], some [], some ([] : List String), some "S"⟩ : Extraction) ∉
        filter_extractions_for_subscription
          [⟨some "T", some [], some [], some ([] : List String), some "S"⟩]
          ⟨some [], some "low", some []⟩ :=
  ⟨rfl, empty_relevance_never_selected.2 _ _ _ rfl⟩

/-- **C10.** If a keyword list contains the empty string then
`matches_keywords` is true for every extraction: the empty string is a
substring of every searched text. -/
theorem empty_keyword_matches_all :
    ∀ (e : Extraction) (kws : List String), "" ∈ kws →
      matches_keywords e kws = true := by
  intro e kws hmem
  unfold matches_keywords
  rcases kws with _ | ⟨kw, rest⟩
  · cases hmem
  · rw [if_neg (by simp), List.any_eq_true]
    exact ⟨"", hmem, by rw [show lowerChars "".data = [] from rfl, isSubstrB_nil]⟩

/-- Witness for `empty_keyword_matches_all` at a concrete extraction and the
keyword list `["zzz", ""]`. -/
theorem empty_keyword_matches_all_witness :
    ("" ∈ ["zzz", ""])
    ∧ matches_keywords ⟨some "T", some ["Acme"], some [], some [], some "S"⟩
        ["zzz", ""] = true :=
  ⟨by decide, empty_keyword_matches_all _ _ (by decide)⟩

/-! ### Lemmas about the delivery-candidate upsert -/

lemma update_of_tripleMatches {s d : Nat} {pd : String} {r : ProRow}
    (h : tripleMatches s d pd r = true) :
    ({ r with subscription_pro_id := s, document_id := d, period_date := pd }
      : ProRow) = r := by
  cases r with
  | mk i sid did pdd su se =>
    simp only [tripleMatches, Bool.and_eq_true, beq_iff_eq] at h
    obtain ⟨⟨h1, h2⟩, h3⟩ := h
    simp [h1, h2, h3]

lemma map_id_of_eq {α : Type} {f : α → α} :
    ∀ {l : List α}, (∀ x ∈ l, f x = x) → l.map f = l := by
  intro l
  induction l with
  | nil => intro _; rfl
  | cons a as ih =>
    intro h
    rw [List.map_cons, h a (List.mem_cons_self a as),
      ih (fun x hx => h x (List.mem_cons_of_mem a hx))]

lemma upsertPro_of_present {s d : Nat} {pd : String} {t : List ProRow}
    (h : t.any (tripleMatches s d pd) = true) :
    upsertPro s d pd t = t := by
  unfold upsertPro
  rw [if_pos h]
  refine map_id_of_eq (fun r _ => ?_)
  by_cases hr : tripleMatches s d pd r = true
  · rw [if_pos hr, update_of_tripleMatches hr]
  · rw [if_neg hr]

lemma upsertPro_eq_or (s d : Nat) (pd : String) (t : List ProRow) :
    (t.any (tripleMatches s d pd) = true ∧ upsertPro s d pd t = t)
    ∨ (t.any (tripleMatches s d pd) = false
        ∧ upsertPro s d pd t = t ++ [⟨freshId t, s, d, pd, none, none⟩]) := by
  by_cases h : t.any (tripleMatches s d pd) = true
  · exact Or.inl ⟨h, upsertPro_of_present h⟩
  · refine Or.inr ⟨Bool.not_eq_true _ ▸ h, ?_⟩
    unfold upsertPro
    rw [if_neg h]

lemma countTriple_append (s d : Nat) (pd : String) (t : List ProRow)
    (r : ProRow) :
    countTriple s d pd (t ++ [r])
      = countTriple s d pd t + (if tripleMatches s d pd r then 1 else 0) := by
  unfold countTriple
  rw [List.filter_append, List.length_append]
  by_cases h : tripleMatches s d pd r = true <;> simp [h]

lemma countTriple_pos_iff {s d : Nat} {pd : String} {t : List ProRow} :
    0 < countTriple s d pd t ↔ t.any (tripleMatches s d pd) = true := by
  unfold countTriple
  rw [List.length_pos, List.any_eq_true, Ne, List.filter_eq_nil_iff]
  push_neg
  simp

lemma countTriple_zero_of_absent {s d : Nat} {pd : String} {t : List ProRow}
    (h : t.any (tripleMatches s d pd) = false) :
    countTriple s d pd t = 0 := by
  by_contra hc
  have := countTriple_pos_iff.mp (Nat.pos_of_ne_zero hc)
  rw [h] at this
  cases this

lemma uniqueTriples_upsertPro {t : List ProRow} (h : uniqueTriples t)
    (s d : Nat) (pd : String) : uniqueTriples (upsertPro s d pd t) := by
  rcases upsertPro_eq_or s d pd t with ⟨_, he⟩ | ⟨ha, he⟩ <;> rw [he]
  · exact h
  · intro s' d' pd'
    rw [countTriple_append]
    by_cases hm :
        tripleMatches s' d' pd' ⟨freshId t, s, d, pd, none, none⟩ = true
    · simp only [tripleMatches, Bool.and_eq_true, beq_iff_eq] at hm
      obtain ⟨⟨h1, h2⟩, h3⟩ := hm
      subst h1; subst h2; subst h3
      rw [countTriple_zero_of_absent ha]
      split <;> omega
    · rw [if_neg hm]
      exact Nat.add_zero _ ▸ h s' d' pd'

lemma countTriple_upsertPro_self {t : List ProRow} (h : uniqueTriples t)
    (s d : Nat) (pd : String) :
    countTriple s d pd (upsertPro s d pd t) = 1 := by
  rcases upsertPro_eq_or s d pd t with ⟨ha, he⟩ | ⟨ha, he⟩ <;> rw [he]
  · have h1 := h s d pd
    have h2 := countTriple_pos_iff.mpr ha
    omega
  · rw [countTriple_append, countTriple_zero_of_absent ha]
    simp [tripleMatches]

lemma countTriple_upsertPro_of_one {t : List ProRow} {s d : Nat} {pd : String}
    (h : countTriple s d pd t = 1) (d' : Nat) :
    countTriple s d pd (upsertPro s d' pd t) = 1 := by
  rcases upsertPro_eq_or s d' pd t with ⟨_, he⟩ | ⟨ha, he⟩ <;> rw [he]
  · exact h
  · rw [countTriple_append]
    by_cases hm :
        tripleMatches s d pd ⟨freshId t, s, d', pd, none, none⟩ = true
    · exfalso
      have hd : d' = d := by simpa [tripleMatches] using hm
      subst hd
      rw [countTriple_zero_of_absent ha] at h
      cases h
    · rw [if_neg hm, Nat.add_zero]
      exact h

lemma insert_extractions_pro_fst (s : Nat) (ds : List Nat) (pd : String)
    (t : List ProRow) :
    (insert_extractions_pro s ds pd t).1
      = ds.foldl (fun a d => upsertPro s d pd a) t := by
  suffices hgen : ∀ (n : Nat) (t : List ProRow),
      (ds.foldl (fun acc d => (upsertPro s d pd acc.1, acc.2 + 1)) (t, n)).1
        = ds.foldl (fun a d => upsertPro s d pd a) t from hgen 0 t
  induction ds with
  | nil => intro n t; rfl
  | cons d rest ih =>
    intro n t
    rw [List.foldl_cons, List.foldl_cons]
    exact ih (n + 1) (upsertPro s d pd t)

lemma uniqueTriples_insert_fold {s : Nat} {pd : String} :
    ∀ (ds : List Nat) (t : List ProRow), uniqueTriples t →
      uniqueTriples (ds.foldl (fun a d => upsertPro s d pd a) t) := by
  intro ds
  induction ds with
  | nil => intro t h; exact h
  | cons d rest ih =>
    intro t h
    rw [List.foldl_cons]
    exact ih _ (uniqueTriples_upsertPro h s d pd)

lemma countTriple_fold_of_one {s : Nat} {pd : String} :
    ∀ (ds : List Nat) (t : List ProRow) (d : Nat),
      countTriple s d pd t = 1 →
      countTriple s d pd (ds.foldl (fun a d' => upsertPro s d' pd a) t) = 1 := by
  intro ds
  induction ds with
  | nil => intro t d h; exact h
  | cons d0 rest ih =>
    intro t d h
    rw [List.foldl_cons]
    exact ih _ d (countTriple_upsertPro_of_one h d0)

lemma countTriple_insert_fold {s : Nat} {pd : String} :
    ∀ (ds : List Nat) (t : List ProRow), uniqueTriples t →
      ∀ d ∈ ds,
        countTriple s d pd (ds.foldl (fun a d' => upsertPro s d' pd a) t) = 1 := by
  intro ds
  induction ds with
  | nil => intro t _ d hd; cases hd
  | cons d0 rest ih =>
    intro t hu d hd
    rw [List.foldl_cons]
    rcases List.mem_cons.mp hd with h0 | hrest
    · subst h0
      exact countTriple_fold_of_one rest _ d (countTriple_upsertPro_self hu s d pd)
    · exact ih _ (uniqueTriples_upsertPro hu s d0 pd) d hrest

lemma insert_table_idem {s : Nat} {pd : String} :
    ∀ (ds : List Nat) (t : List ProRow),
      (∀ d ∈ ds, t.any (tripleMatches s d pd) = true) →
      ds.foldl (fun a d => upsertPro s d pd a) t = t := by
  intro ds
  induction ds with
  | nil => intro t _; rfl
  | cons d0 rest ih =>
    intro t h
    rw [List.foldl_cons, upsertPro_of_present (h d0 (List.mem_cons_self d0 rest))]
    exact ih t (fun d hd => h d (List.mem_cons_of_mem d0 hd))

/-! ### Claim theorems for the delivery tracker -/

/-- **C3.** Candidate registration is an idempotent upsert keyed by the full
(subscription, document, period) triple: on a table satisfying the uniqueness
invariant, a second identical `insert_extractions_pro` run is a no-op, the
invariant is preserved, and each requested (subscription, document, period)
triple ends with exactly one row. -/
theorem insert_extractions_pro_idempotent :
    ∀ (t : List ProRow) (s : Nat) (ds : List Nat) (pd : String),
      uniqueTriples t →
      (insert_extractions_pro s ds pd
          (insert_extractions_pro s ds pd t).1).1
        = (insert_extractions_pro s ds pd t).1
      ∧ uniqueTriples (insert_extractions_pro s ds pd t).1
      ∧ ∀ d ∈ ds,
          countTriple s d pd (insert_extractions_pro s ds pd t).1 = 1 := by
  intro t s ds pd hu
  rw [insert_extractions_pro_fst, insert_extractions_pro_fst]
  refine ⟨?_, uniqueTriples_insert_fold ds t hu, countTriple_insert_fold ds t hu⟩
  refine insert_table_idem ds _ (fun d hd => ?_)
  exact countTriple_pos_iff.mp
    (by rw [countTriple_insert_fold ds t hu d hd]; exact Nat.one_pos)

/-- Witness for `insert_extractions_pro_idempotent`: starting from an empty
table, registering documents 1 and 2 for subscription 7 twice equals doing it
once, and each triple has exactly one row. -/
theorem insert_extractions_pro_idempotent_witness :
    uniqueTriples ([] : List ProRow)
    ∧ ((insert_extractions_pro 7 [1, 2] "2026-01-31"
          (insert_extractions_pro 7 [1, 2] "2026-01-31" []).1).1
        = (insert_extractions_pro 7 [1, 2] "2026-01-31" []).1
      ∧ uniqueTriples (insert_extractions_pro 7 [1, 2] "2026-01-31" []).1
      ∧ ∀ d ∈ [1, 2],
          countTriple 7 d "2026-01-31"
            (insert_extractions_pro 7 [1, 2] "2026-01-31" []).1 = 1) := by
  have hu : uniqueTriples ([] : List ProRow) := by
    intro s d pd
    simp [countTriple]
  exact ⟨hu, insert_extractions_pro_idempotent [] 7 [1, 2] "2026-01-31" hu⟩

/-- **C2 counterexample.** Calling `mark_extractions_sent` on the same id set
a second time does not leave `sent_at` unchanged: the update is unconditional,
so the second call replaces the first timestamp with its own. -/
theorem mark_extractions_sent_second_call_overwrites :
    (mark_extractions_sent [1] "2026-01-31T10:00:00"
        [⟨1, 7, 42, "2026-01-31", some "sum", none⟩]).map ProRow.sent_at
      = [some "2026-01-31T10:00:00"]
    ∧ (mark_extractions_sent [1] "2026-01-31T11:00:00"
        (mark_extractions_sent [1] "2026-01-31T10:00:00"
          [⟨1, 7, 42, "2026-01-31", some "sum", none⟩])).map ProRow.sent_at
      = [some "2026-01-31T11:00:00"]
    ∧ mark_extractions_sent [1] "2026-01-31T11:00:00"
        (mark_extractions_sent [1] "2026-01-31T10:00:00"
          [⟨1, 7, 42, "2026-01-31", some "sum", none⟩])
      ≠ mark_extractions_sent [1] "2026-01-31T10:00:00"
          [⟨1, 7, 42, "2026-01-31", some "sum", none⟩] := by
  refine ⟨rfl, rfl, ?_⟩
  decide

/-- **C2 amended.** `mark_extractions_sent` itself overwrites `sent_at`
unconditionally, but `send_pro_digest` only marks ids fetched with
`sent_at IS NULL`, so a pipeline re-run leaves every already-sent row (its
non-null `sent_at` included) unchanged in the table. -/
theorem mark_sent_pipeline_preserves_sent :
    ∀ (t : List ProRow) (subId : Nat) (pd now : String) (r : ProRow),
      (t.map ProRow.id).Nodup → r ∈ t → r.sent_at.isSome →
      r ∈ mark_extractions_sent
          ((fetch_unsent_extractions_for_subscription subId (some pd) t).map
            ProRow.id) now t := by
  intro t subId pd now r hnd hr hs
  unfold mark_extractions_sent
  have hfr :
      (if ((fetch_unsent_extractions_for_subscription subId (some pd) t).map
            ProRow.id).contains r.id then
        ({ r with sent_at := some now } : ProRow)
      else r) = r := by
    rw [if_neg ?hcond]
    case hcond =>
      intro hc
      have hc' : r.id ∈ (fetch_unsent_extractions_for_subscription subId
          (some pd) t).map ProRow.id := List.elem_iff.mp hc
      obtain ⟨r', hr', hid⟩ := List.mem_map.mp hc'
      have hr't : r' ∈ t :=
        (List.mem_filter.mp hr').1
      have hnone : r'.sent_at.isNone := by
        have := (List.mem_filter.mp hr').2
        simp only [fetch_unsent_extractions_for_subscription,
          Bool.and_eq_true] at this ⊢
        exact this.1.2
      have heq : r' = r := List.inj_on_of_nodup_map hnd hr't hr hid
      rw [heq] at hnone
      rw [Option.isSome_iff_ne_none] at hs
      rw [Option.isNone_iff_eq_none] at hnone
      exact hs hnone
  exact List.mem_map.mpr ⟨r, hr, hfr⟩

/-- Witness for `mark_sent_pipeline_preserves_sent`: a table with one sent and
one unsent row; re-running the marking pass keeps the sent row intact. -/
theorem mark_sent_pipeline_preserves_sent_witness :
    (([⟨1, 7, 42, "2026-01-31", some "s1", some "2026-01-30T09:00:00"⟩,
        ⟨2, 7, 43, "2026-01-31", some "s2", none⟩] : List ProRow).map
        ProRow.id).Nodup
    ∧ (⟨1, 7, 42, "2026-01-31", some "s1", some "2026-01-30T09:00:00"⟩ : ProRow)
        ∈ mark_extractions_sent
          ((fetch_unsent_extractions_for_subscription 7 (some "2026-01-31")
              [⟨1, 7, 42, "2026-01-31", some "s1", some "2026-01-30T09:00:00"⟩,
                ⟨2, 7, 43, "2026-01-31", some "s2", none⟩]).map ProRow.id)
          "2026-01-31T12:00:00"
          [⟨1, 7, 42, "2026-01-31", some "s1", some "2026-01-30T09:00:00"⟩,
            ⟨2, 7, 43, "2026-01-31", some "s2", none⟩] :=
  ⟨by decide,
    mark_sent_pipeline_preserves_sent _ 7 "2026-01-31" "2026-01-31T12:00:00" _
      (by decide) (by decide) (by decide)⟩

/-! ### Lemmas about the similarity-selector loop -/

lemma statsAdd_zero (st : SyncStats) : statsAdd st ⟨0, 0, 0⟩ = st := by
  cases st
  simp [statsAdd]

lemma statsAdd_assoc (a b c : SyncStats) :
    statsAdd (statsAdd a b) c = statsAdd a (statsAdd b c) := by
  cases a; cases b; cases c
  simp [statsAdd, Nat.add_assoc]

lemma syncStep_shift (search : String → Except Unit (List SearchResult))
    (pd : String) (st : SyncStats) (t : List ProRow) (sub : ProSubscription) :
    syncStep search pd (st, t) sub
      = (statsAdd st (syncStep search pd (⟨0, 0, 0⟩, t) sub).1,
         (syncStep search pd (⟨0, 0, 0⟩, t) sub).2) := by
  unfold syncStep
  cases hsr : search (build_search_query sub) with
  | error e => cases st; simp [statsAdd]
  | ok results =>
    by_cases he : results.isEmpty = true
    · cases st; simp [he, statsAdd]
    · cases st; simp [he, statsAdd]

lemma sync_fold_shift (search : String → Except Unit (List SearchResult))
    (pd : String) :
    ∀ (subs : List ProSubscription) (st : SyncStats) (t : List ProRow),
      subs.foldl (syncStep search pd) (st, t)
        = (statsAdd st (subs.foldl (syncStep search pd) (⟨0, 0, 0⟩, t)).1,
           (subs.foldl (syncStep search pd) (⟨0, 0, 0⟩, t)).2) := by
  intro subs
  induction subs with
  | nil => intro st t; rw [List.foldl_nil, List.foldl_nil, statsAdd_zero]
  | cons sub rest ih =>
    intro st t
    rw [List.foldl_cons, List.foldl_cons]
    rcases hstep : syncStep search pd (⟨0, 0, 0⟩, t) sub with ⟨S1, T1⟩
    have hshift := syncStep_shift search pd st t sub
    rw [hstep] at hshift
    rw [hshift, ih (statsAdd st S1) T1, ih S1 T1, statsAdd_assoc]

lemma sync_fold_errors (search : String → Except Unit (List SearchResult))
    (pd : String) :
    ∀ (subs : List ProSubscription) (st : SyncStats) (t : List ProRow),
      (∀ s ∈ subs, ∃ rs, search (build_search_query s) = Except.ok rs) →
      (subs.foldl (syncStep search pd) (st, t)).1.errors = st.errors := by
  intro subs
  induction subs with
  | nil => intro st t _; rfl
  | cons sub rest ih =>
    intro st t h
    obtain ⟨rs, hrs⟩ := h sub (List.mem_cons_self sub rest)
    have hrest : ∀ s ∈ rest, ∃ r, search (build_search_query s) = Except.ok r :=
      fun s hs => h s (List.mem_cons_of_mem sub hs)
    rw [List.foldl_cons]
    by_cases he : rs.isEmpty = true
    · have hstep : syncStep search pd (st, t) sub = (st, t) := by
        simp [syncStep, hrs, he]
      rw [hstep]
      exact ih st t hrest
    · have hstep : syncStep search pd (st, t) sub
          = ({ st with
                subscriptions := st.subscriptions + 1,
                documents := st.documents
                  + (insert_extractions_pro sub.id
                      (rs.map SearchResult.document_id) pd t).2 },
             (insert_extractions_pro sub.id
                (rs.map SearchResult.document_id) pd t).1) := by
        simp [syncStep, hrs, he]
      rw [hstep, ih _ _ hrest]

/-! ### Claim theorem for the similarity selector -/

/-- **C8.** Per-subscriber isolation: if the semantic-search call fails for
exactly one subscription `b` in the processing order `A ++ b :: C`, the run
equals the run over `A ++ C` alone except that `errors` is one higher — every
other subscriber's processing (counters and inserted candidate rows) is
untouched — and when all other searches succeed the final error count is
exactly 1. -/
theorem sync_pro_digests_isolates_failure :
    ∀ (search : String → Except Unit (List SearchResult)) (pd : String)
      (t : List ProRow) (A C : List ProSubscription) (b : ProSubscription),
      search (build_search_query b) = Except.error () →
      (∀ s ∈ A ++ C, ∃ rs, search (build_search_query s) = Except.ok rs) →
      sync_pro_digests search (A ++ b :: C) pd t
          = ({ (sync_pro_digests search (A ++ C) pd t).1 with
                errors := (sync_pro_digests search (A ++ C) pd t).1.errors + 1 },
             (sync_pro_digests search (A ++ C) pd t).2)
        ∧ (sync_pro_digests search (A ++ b :: C) pd t).1.errors = 1 := by
  intro search pd t A C b herr hok
  have hmain : sync_pro_digests search (A ++ b :: C) pd t
      = ({ (sync_pro_digests search (A ++ C) pd t).1 with
            errors := (sync_pro_digests search (A ++ C) pd t).1.errors + 1 },
         (sync_pro_digests search (A ++ C) pd t).2) := by
    unfold sync_pro_digests
    rw [List.foldl_append, List.foldl_append, List.foldl_cons]
    rcases hA : A.foldl (syncStep search pd) (⟨0, 0, 0⟩, t) with ⟨stA, tA⟩
    have hstep : syncStep search pd (stA, tA) b
        = (⟨stA.subscriptions, stA.documents, stA.errors + 1⟩, tA) := by
      cases stA
      simp [syncStep, herr]
    rw [hstep, sync_fold_shift search pd C _ tA, sync_fold_shift search pd C stA tA]
    simp only [statsAdd, Prod.mk.injEq, SyncStats.mk.injEq]
    refine ⟨⟨trivial, trivial, by omega⟩, trivial⟩
  refine ⟨hmain, ?_⟩
  rw [hmain]
  have h0 : (sync_pro_digests search (A ++ C) pd t).1.errors = 0 :=
    sync_fold_errors search pd (A ++ C) ⟨0, 0, 0⟩ t hok
  simp [h0]

/-- Witness for `sync_pro_digests_isolates_failure`: three concrete pro
subscriptions where only the middle one's query fails; the run reports exactly
one error. -/
theorem sync_pro_digests_isolates_failure_witness :
    ((fun q => if q = "oil" then (Except.error () : Except Unit (List SearchResult))
        else Except.ok [⟨5⟩])
      (build_search_query ⟨2, "b@x.com", some "oil", none⟩) = Except.error ())
    ∧ (sync_pro_digests
        (fun q => if q = "oil" then (Except.error () : Except Unit (List SearchResult))
          else Except.ok [⟨5⟩])
        [⟨1, "a@x.com", some "bank", some ["rates"]⟩,
          ⟨2, "b@x.com", some "oil", none⟩,
          ⟨3, "c@x.com", none, some ["gas"]⟩]
        "2026-01-31" []).1.errors = 1 := by
  have herr : (fun q => if q = "oil" then (Except.error () : Except Unit (List SearchResult))
      else Except.ok [⟨5⟩])
      (build_search_query ⟨2, "b@x.com", some "oil", none⟩) = Except.error () := by
    rfl
  have hok : ∀ s ∈ ([⟨1, "a@x.com", some "bank", some ["rates"]⟩] : List ProSubscription)
      ++ [⟨3, "c@x.com", none, some ["gas"]⟩],
      ∃ rs, (fun q => if q = "oil" then (Except.error () : Except Unit (List SearchResult))
        else Except.ok [⟨5⟩]) (build_search_query s) = Except.ok rs := by
    intro s hs
    rcases hs with _ | ⟨_, hs⟩
    · exact ⟨[⟨5⟩], rfl⟩
    · rcases hs with _ | ⟨_, hs⟩
      · exact ⟨[⟨5⟩], rfl⟩
      · cases hs
  exact ⟨herr,
    (sync_pro_digests_isolates_failure _ "2026-01-31" []
      [⟨1, "a@x.com", some "bank", some ["rates"]⟩]
      [⟨3, "c@x.com", none, some ["gas"]⟩]
      ⟨2, "b@x.com", some "oil", none⟩ herr hok).2⟩

/-! ### Lemmas about the pagination loop -/

lemma crawlLoop_succ_err {α : Type} (server : Nat → Except FetchErr (PageResponse α))
    (fuel offset : Nat) (total? : Option Nat) (e : FetchErr)
    (hc : server offset = .error e) :
    crawlLoop server (fuel + 1) offset total? = ⟨1, [], errOutcome e⟩ := by
  cases e <;> simp [crawlLoop, hc, errOutcome]

lemma crawlLoop_succ_empty {α : Type} (server : Nat → Except FetchErr (PageResponse α))
    (fuel offset : Nat) (total? : Option Nat) (c : Option Nat)
    (hc : server offset = .ok ⟨[], c⟩) :
    crawlLoop server (fuel + 1) offset total? = ⟨1, [], .finished⟩ := by
  simp [crawlLoop, hc]

lemma crawlLoop_succ_stop {α : Type} (server : Nat → Except FetchErr (PageResponse α))
    (fuel offset total : Nat) (total? : Option Nat) (p : List α) (c : Option Nat)
    (hc : server offset = .ok ⟨p, c⟩) (htot : total?.getD (c.getD 0) = total)
    (hne : p ≠ []) (hstop : (offset + 1) * PAGE_SIZE ≥ total) :
    crawlLoop server (fuel + 1) offset total? = ⟨1, p, .finished⟩ := by
  simp only [crawlLoop, hc]
  rw [htot]
  rw [if_neg (by simpa [List.isEmpty_iff] using hne), if_pos hstop]

lemma crawlLoop_succ_ok {α : Type} (server : Nat → Except FetchErr (PageResponse α))
    (fuel offset total : Nat) (total? : Option Nat) (p : List α) (c : Option Nat)
    (hc : server offset = .ok ⟨p, c⟩) (htot : total?.getD (c.getD 0) = total)
    (hne : p ≠ []) (hcont : (offset + 1) * PAGE_SIZE < total) :
    crawlLoop server (fuel + 1) offset total?
      = ⟨(crawlLoop server fuel (offset + 1) (some total)).requests + 1,
         p ++ (crawlLoop server fuel (offset + 1) (some total)).yielded,
         (crawlLoop server fuel (offset + 1) (some total)).outcome⟩ := by
  simp only [crawlLoop, hc]
  rw [htot]
  rw [if_neg (by simpa [List.isEmpty_iff] using hne), if_neg (not_le.mpr hcont)]

lemma crawlLoop_skip {α : Type} (server : Nat → Except FetchErr (PageResponse α))
    (total : Nat) :
    ∀ (ps : List (List α)) (offset fuel : Nat),
      ServedFrom server total offset ps →
      crawlLoop server (fuel + ps.length) offset (some total)
        = ⟨ps.length
              + (crawlLoop server fuel (offset + ps.length) (some total)).requests,
           ps.flatten
              ++ (crawlLoop server fuel (offset + ps.length) (some total)).yielded,
           (crawlLoop server fuel (offset + ps.length) (some total)).outcome⟩ := by
  intro ps
  induction ps with
  | nil => intro offset fuel _; simp
  | cons p rest ih =>
    intro offset fuel hserve
    obtain ⟨⟨c, hc⟩, hne, hcont, hrest⟩ := hserve
    have hstep := crawlLoop_succ_ok server (fuel + rest.length) offset total
      (some total) p c hc (by simp) hne hcont
    rw [show fuel + (p :: rest).length = fuel + rest.length + 1 from rfl, hstep,
      ih (offset + 1) fuel hrest]
    have harg : offset + 1 + rest.length = offset + (p :: rest).length := by
      simp [List.length_cons]
      omega
    rw [harg]
    simp only [CrawlResult.mk.injEq, List.length_cons, List.flatten_cons,
      List.append_assoc]
    refine ⟨by omega, trivial, trivial⟩

/-! ### Claim theorems for the pagination loop -/

/-- **C4.** Pagination terminates on the count math or an empty page.
First conjunct: after a first page reporting `total` and further pages on
which the loop's check `(pages so far) * PAGE_SIZE >= total` keeps it going
(per-page reported counts unconstrained — only the first response's count is
read), a final non-empty page whose index satisfies the check ends the run:
every served page is requested exactly once and all of them, the final one
included, are yielded. Second conjunct: a page with zero results terminates
the run even though the count math would continue. Third conjunct: for a
reported total of 250 with `PAGE_SIZE = 100`, exactly 3 page requests are
made and the third page's results are yielded. -/
theorem crawl_date_range_pagination :
    (∀ (α : Type) (server : Nat → Except FetchErr (PageResponse α))
        (total fuel : Nat) (p0 q : List α) (ps : List (List α)) (cq : Option Nat),
      server 0 = .ok ⟨p0, some total⟩ → p0 ≠ [] → PAGE_SIZE < total →
      ServedFrom server total 1 ps →
      server (1 + ps.length) = .ok ⟨q, cq⟩ → q ≠ [] →
      (1 + ps.length + 1) * PAGE_SIZE ≥ total →
      ps.length + 2 ≤ fuel →
      crawl_date_range server fuel
        = ⟨ps.length + 2, p0 ++ ps.flatten ++ q, .finished⟩)
    ∧ (∀ (α : Type) (server : Nat → Except FetchErr (PageResponse α))
        (total fuel : Nat) (p0 : List α) (ps : List (List α)) (cq : Option Nat),
      server 0 = .ok ⟨p0, some total⟩ → p0 ≠ [] → PAGE_SIZE < total →
      ServedFrom server total 1 ps →
      server (1 + ps.length) = .ok ⟨[], cq⟩ →
      ps.length + 2 ≤ fuel →
      crawl_date_range server fuel
        = ⟨ps.length + 2, p0 ++ ps.flatten, .finished⟩)
    ∧ (∀ (server : Nat → Except FetchErr (PageResponse Nat)) (fuel : Nat)
        (p0 p1 p2 : List Nat) (c1 c2 : Option Nat),
      server 0 = .ok ⟨p0, some 250⟩ → server 1 = .ok ⟨p1, c1⟩ →
      server 2 = .ok ⟨p2, c2⟩ → p0 ≠ [] → p1 ≠ [] → p2 ≠ [] → 3 ≤ fuel →
      crawl_date_range server fuel = ⟨3, p0 ++ p1 ++ p2, .finished⟩) := by
  have parta : ∀ (α : Type) (server : Nat → Except FetchErr (PageResponse α))
      (total fuel : Nat) (p0 q : List α) (ps : List (List α)) (cq : Option Nat),
      server 0 = .ok ⟨p0, some total⟩ → p0 ≠ [] → PAGE_SIZE < total →
      ServedFrom server total 1 ps →
      server (1 + ps.length) = .ok ⟨q, cq⟩ → q ≠ [] →
      (1 + ps.length + 1) * PAGE_SIZE ≥ total →
      ps.length + 2 ≤ fuel →
      crawl_date_range server fuel
        = ⟨ps.length + 2, p0 ++ ps.flatten ++ q, .finished⟩ := by
    intro α server total fuel p0 q ps cq h0 hne0 hcont0 hps hq hqne hstop hfuel
    obtain ⟨f, rfl⟩ : ∃ f, fuel = f + 1 + ps.length + 1 :=
      ⟨fuel - ps.length - 2, by omega⟩
    unfold crawl_date_range
    rw [crawlLoop_succ_ok server (f + 1 + ps.length) 0 total none p0 (some total)
        h0 (by simp) hne0 (by simpa using hcont0),
      show (0 : Nat) + 1 = 1 from rfl,
      crawlLoop_skip server total ps 1 (f + 1) hps,
      crawlLoop_succ_stop server f (1 + ps.length) total (some total) q cq hq
        (by simp) hqne hstop]
    simp only [CrawlResult.mk.injEq, List.append_assoc]
  refine ⟨parta, ?_, ?_⟩
  · intro α server total fuel p0 ps cq h0 hne0 hcont0 hps hq hfuel
    obtain ⟨f, rfl⟩ : ∃ f, fuel = f + 1 + ps.length + 1 :=
      ⟨fuel - ps.length - 2, by omega⟩
    unfold crawl_date_range
    rw [crawlLoop_succ_ok server (f + 1 + ps.length) 0 total none p0 (some total)
        h0 (by simp) hne0 (by simpa using hcont0),
      show (0 : Nat) + 1 = 1 from rfl,
      crawlLoop_skip server total ps 1 (f + 1) hps,
      crawlLoop_succ_empty server f (1 + ps.length) (some total) cq hq]
    simp only [CrawlResult.mk.injEq, List.append_nil]
  · intro server fuel p0 p1 p2 c1 c2 h0 h1 h2 hne0 hne1 hne2 hfuel
    have hps : ServedFrom server 250 1 [p1] :=
      ⟨⟨c1, h1⟩, hne1, by decide, trivial⟩
    have := parta Nat server 250 fuel p0 p2 [p1] c2 h0 hne0 (by decide) hps
      h2 hne2 (by norm_num [PAGE_SIZE]) (by simpa using hfuel)
    simpa using this

/-- **C5.** A transport failure (caught non-2xx status error or uncaught
timeout) on any page request ends the `crawl_date_range` sequence at once:
the failing page is requested exactly once, no further request follows (no
inline retry), and the documents yielded from the pages before it are exactly
the sequence's output. First conjunct: failure on the very first request.
Second conjunct: failure after any run of successfully served pages. -/
theorem crawl_date_range_transport_failure :
    (∀ (α : Type) (server : Nat → Except FetchErr (PageResponse α))
        (fuel : Nat) (e : FetchErr),
      server 0 = .error e → 1 ≤ fuel →
      crawl_date_range server fuel = ⟨1, ([] : List α), errOutcome e⟩)
    ∧ (∀ (α : Type) (server : Nat → Except FetchErr (PageResponse α))
        (total fuel : Nat) (p0 : List α) (ps : List (List α)) (e : FetchErr),
      server 0 = .ok ⟨p0, some total⟩ → p0 ≠ [] → PAGE_SIZE < total →
      ServedFrom server total 1 ps →
      server (1 + ps.length) = .error e →
      ps.length + 2 ≤ fuel →
      crawl_date_range server fuel
        = ⟨ps.length + 2, p0 ++ ps.flatten, errOutcome e⟩) := by
  constructor
  · intro α server fuel e h0 hfuel
    obtain ⟨f, rfl⟩ : ∃ f, fuel = f + 1 := ⟨fuel - 1, by omega⟩
    unfold crawl_date_range
    exact crawlLoop_succ_err server f 0 none e h0
  · intro α server total fuel p0 ps e h0 hne0 hcont0 hps herr hfuel
    obtain ⟨f, rfl⟩ : ∃ f, fuel = f + 1 + ps.length + 1 :=
      ⟨fuel - ps.length - 2, by omega⟩
    unfold crawl_date_range
    rw [crawlLoop_succ_ok server (f + 1 + ps.length) 0 total none p0 (some total)
        h0 (by simp) hne0 (by simpa using hcont0),
      show (0 : Nat) + 1 = 1 from rfl,
      crawlLoop_skip server total ps 1 (f + 1) hps,
      crawlLoop_succ_err server f (1 + ps.length) (some total) e herr]
    simp only [CrawlResult.mk.injEq, List.append_nil]

/-- Witness for `crawl_date_range_pagination`: a concrete three-page server
reporting total 250 — exactly 3 requests, all three pages yielded. -/
theorem crawl_date_range_pagination_witness :
    ((fun o => if o = 0 then Except.ok (⟨[10, 11], some 250⟩ : PageResponse Nat)
        else if o = 1 then Except.ok ⟨[20], none⟩
        else if o = 2 then Except.ok ⟨[30], some 999⟩
        else Except.error FetchErr.statusError) 0 = Except.ok ⟨[10, 11], some 250⟩)
    ∧ crawl_date_range
        (fun o => if o = 0 then Except.ok (⟨[10, 11], some 250⟩ : PageResponse Nat)
          else if o = 1 then Except.ok ⟨[20], none⟩
          else if o = 2 then Except.ok ⟨[30], some 999⟩
          else Except.error FetchErr.statusError) 5
        = ⟨3, [10, 11] ++ [20] ++ [30], .finished⟩ :=
  ⟨rfl,
    crawl_date_range_pagination.2.2 _ 5 [10, 11] [20] [30] none (some 999)
      rfl rfl rfl (by decide) (by decide) (by decide) (by decide)⟩

/-- Witness for `crawl_date_range_transport_failure`: one good page (total
300), then a timeout — 2 requests, the first page's documents are the
output, and the sequence ends by propagating the timeout. -/
theorem crawl_date_range_transport_failure_witness :
    ((fun o => if o = 0 then Except.ok (⟨[10], some 300⟩ : PageResponse Nat)
        else Except.error FetchErr.timeout) 1 = Except.error FetchErr.timeout)
    ∧ crawl_date_range
        (fun o => if o = 0 then Except.ok (⟨[10], some 300⟩ : PageResponse Nat)
          else Except.error FetchErr.timeout) 2
        = ⟨2, [10], errOutcome .timeout⟩ := by
  refine ⟨rfl, ?_⟩
  have := crawl_date_range_transport_failure.2 Nat
    (fun o => if o = 0 then Except.ok (⟨[10], some 300⟩ : PageResponse Nat)
      else Except.error FetchErr.timeout) 300 2 [10] [] .timeout
    rfl (by decide) (by decide) trivial rfl (by decide)
  simpa using this

/-! ### Claim theorem for the catalog store -/

/-- **C1 (the code at the failing input).** Ingestion is not idempotent for
documents without a granule id: re-running `save_documents` with the same
document whose `granule_id` is NULL appends a second row with the same
(package_id, NULL) identity instead of replacing the first — SQLite's
`UNIQUE(package_id, granule_id)` index treats NULL granules as pairwise
distinct, so `INSERT OR REPLACE` finds nothing to replace. With a non-NULL
granule id the intended replace-on-reingest behaviour does hold (second
conjunct), which shows the NULL case is the slip. -/
theorem save_documents_null_granule_duplicates :
    countIdentity "CREC-2026-01-30" none
        (save_documents
          (save_documents []
            [⟨"CREC-2026-01-30", "Congressional Record", "CREC", "2026-01-30",
              "118th Congress", none, none,
              "https://www.govinfo.gov/app/details/CREC-2026-01-30", none,
              some ""⟩] "2026-01-31T06:00:00")
          [⟨"CREC-2026-01-30", "Congressional Record", "CREC", "2026-01-30",
            "118th Congress", none, none,
            "https://www.govinfo.gov/app/details/CREC-2026-01-30", none,
            some ""⟩] "2026-02-01T06:00:00") = 2
    ∧ countIdentity "BILLS-119hr1ih" (some "g1")
        (save_documents
          (save_documents []
            [⟨"BILLS-119hr1ih", "A Bill", "BILLS", "2026-01-30", "m", none,
              none, "https://www.govinfo.gov/app/details/BILLS-119hr1ih/g1",
              some "g1", some ""⟩] "2026-01-31T06:00:00")
          [⟨"BILLS-119hr1ih", "A Bill", "BILLS", "2026-01-30", "m", none,
            none, "https://www.govinfo.gov/app/details/BILLS-119hr1ih/g1",
            some "g1", some ""⟩] "2026-02-01T06:00:00") = 1 :=
  ⟨by decide, by decide⟩

end Fufx
